import Mathlib

/-!
Shallow embedding of the IAM module (`src/iam.cpp`) of the
nabto-client-edge-tunnel repository.

The module issues five CoAP operations over a borrowed connection handle:
`list_users`, `list_roles`, `add_role_to_user`, `remove_role_from_user`
and `delete_user`, plus a yes/no confirmation prompt `yn_prompt` and two
shared printing helpers `print_coap_error` and `print_error_access_denied`.

The external collaborator (connection / CoAP request layer) and the
standard input stream are modelled by explicit outcome values:
* `ExecOutcome` — what `coap->execute()->waitForResult()` followed by
  `coap->getResponseStatusCode()` yields: either a thrown exception or a
  numeric status code;
* `DecodeOutcome` — what `coap->getResponsePayload()` followed by
  `json::from_cbor` yields on the 205 branch of the list operations:
  an exception from `getResponsePayload`, an exception from `from_cbor`,
  or a decoded list of identifier strings;
* the characters successfully extracted from `std::cin` are a
  `List Char`; when the list is exhausted the stream fails and the
  extraction leaves the target variable unmodified, exactly as a failed
  `std::cin >> answer` does.

Each operation returns an `OpResult` recording the boolean return value,
the CoAP request objects created (method and path, in creation order),
and the text printed to standard output and standard error.  Each list
element is one `<<`-chain of the source (one print event).
-/

namespace IAM

inductive Method where
  | GET : Method
  | PUT : Method
  | DELETE : Method
deriving DecidableEq, Repr

structure Request where
  method : Method
  path : String
deriving DecidableEq, Repr

/-- Outcome of `coap->execute()->waitForResult()` +
`coap->getResponseStatusCode()`: an exception, or a status code. -/
inductive ExecOutcome where
  | throw : ExecOutcome
  | status : Int → ExecOutcome
deriving DecidableEq, Repr

/-- Outcome of `coap->getResponsePayload()` + `json::from_cbor` on the
205 branch of a list operation. -/
inductive DecodeOutcome where
  | payloadThrow : DecodeOutcome
  | cborThrow : DecodeOutcome
  | ok : List String → DecodeOutcome
deriving DecidableEq, Repr

/-- The observable result of one operation: the returned boolean, the
CoAP requests created, and the print events on stdout and stderr. -/
structure OpResult where
  retval : Bool
  requests : List Request
  stdout : List String
  stderr : List String
deriving DecidableEq, Repr

/-- The do-while loop of `yn_prompt`: `answer` starts as `0`; each
iteration extracts one character; on a `'y'` or `'n'` the loop stops;
when the stream fails (input exhausted) `answer` keeps its last value. -/
def yn_loop : List Char → Char → Char
  | [], answer => answer
  | c :: rest, _ => if c = 'y' ∨ c = 'n' then c else yn_loop rest c

/-- Source `yn_prompt`: returns `answer == 'y'` after the loop. -/
def yn_prompt (input : List Char) : Bool :=
  yn_loop input (Char.ofNat 0) == 'y'

/-- Number of loop iterations of `yn_prompt` (each prints the prompt and
attempts one extraction; a failing extraction still printed first). -/
def yn_reads : List Char → Nat
  | [] => 1
  | c :: rest => if c = 'y' ∨ c = 'n' then 1 else yn_reads rest + 1

/-- The prompt lines printed by `yn_prompt`: the message followed by
`" [y/n]: "`, once per loop iteration. -/
def yn_displays (message : String) (input : List Char) : List String :=
  List.replicate (yn_reads input) (message ++ " [y/n]: ")

/-- Source `print_coap_error`. -/
def print_coap_error (path : String) (responseCode : Int) : String :=
  "The CoAP request to " ++ path ++ " returned response code: " ++ toString responseCode

/-- Source `print_error_access_denied` (one `<<`-chain with an
embedded newline). -/
def access_denied_text : String :=
  "This is potentially due to insufficient privileges,\ncheck the IAM policies file if you are the owner of this device."

/-- The per-user lines of `list_users` on the 205 branch:
`"[" << i++ << "] UserID: " << user`, with `i` starting at 1. -/
def user_lines (users : List String) : List String :=
  (List.enumFrom 1 users).map (fun p => "[" ++ toString p.1 ++ "] UserID: " ++ p.2)

/-- The per-role lines of `list_roles` on the 205 branch:
`"[" << i++ << "]: " << role`, with `i` starting at 1. -/
def role_lines (roles : List String) : List String :=
  (List.enumFrom 1 roles).map (fun p => "[" ++ toString p.1 ++ "]: " ++ p.2)

/-- Source `list_users`: `GET /iam/users`; 205 decodes and prints the users,
403 prints denial + guidance, other codes print the generic CoAP error;
any exception is caught and reported on stderr. -/
def list_users (exec : ExecOutcome) (dec : DecodeOutcome) : OpResult :=
  let path := "/iam/users"
  let req : Request := ⟨Method.GET, path⟩
  match exec with
  | ExecOutcome.throw =>
    ⟨false, [req], [], ["Cannot get IAM user list"]⟩
  | ExecOutcome.status responseCode =>
    if responseCode = 205 then
      match dec with
      | DecodeOutcome.payloadThrow =>
        ⟨false, [req], [], ["Cannot get IAM user list"]⟩
      | DecodeOutcome.cborThrow =>
        ⟨false, [req], ["Listing all users..."], ["Cannot get IAM user list"]⟩
      | DecodeOutcome.ok users =>
        ⟨true, [req], "Listing all users..." :: user_lines users, []⟩
    else if responseCode = 403 then
      ⟨false, [req],
        ["The request to list users (" ++ path ++ ") was denied.", access_denied_text], []⟩
    else
      ⟨false, [req], [print_coap_error path responseCode], []⟩

/-- Source `list_roles`: `GET /iam/roles`; same shape as `list_users`. -/
def list_roles (exec : ExecOutcome) (dec : DecodeOutcome) : OpResult :=
  let path := "/iam/roles"
  let req : Request := ⟨Method.GET, path⟩
  match exec with
  | ExecOutcome.throw =>
    ⟨false, [req], [], ["Cannot get IAM role list"]⟩
  | ExecOutcome.status responseCode =>
    if responseCode = 205 then
      match dec with
      | DecodeOutcome.payloadThrow =>
        ⟨false, [req], [], ["Cannot get IAM role list"]⟩
      | DecodeOutcome.cborThrow =>
        ⟨false, [req], ["Listing available roles..."], ["Cannot get IAM role list"]⟩
      | DecodeOutcome.ok roles =>
        ⟨true, [req], "Listing available roles..." :: role_lines roles, []⟩
    else if responseCode = 403 then
      ⟨false, [req],
        ["The request to list roles (" ++ path ++ ") was denied.", access_denied_text], []⟩
    else
      ⟨false, [req], [print_coap_error path responseCode], []⟩

/-- Confirmation message of `add_role_to_user`. -/
def add_role_message (user role : String) : String :=
  "Add role \"" ++ role ++ "\" to user \"" ++ user ++ "\"? "

/-- Confirmation message of `remove_role_from_user`. -/
def remove_role_message (user role : String) : String :=
  "Remove role \"" ++ role ++ "\" from user \"" ++ user ++ "\"? "

/-- Confirmation message of `delete_user`. -/
def delete_user_message (user : String) : String :=
  "Delete user \"" ++ user ++ "\"? "

/-- The 500-branch message shared by `add_role_to_user` and
`remove_role_from_user` (one `<<`-chain with an embedded newline). -/
def error_500_text : String :=
  "The request returned error 500.\nAre you sure you typed in the right role id and user id?"

/-- Source `add_role_to_user`: builds `/iam/users/<user>/roles/<role>`, prompts,
and on confirmation sends one `PUT`; declining prints "Action cancelled."
and returns true without creating a request. -/
def add_role_to_user (user role : String) (input : List Char) (exec : ExecOutcome) : OpResult :=
  let path := "/iam/users/" ++ user ++ "/roles/" ++ role
  let prompts := yn_displays (add_role_message user role) input
  if yn_prompt input then
    let req : Request := ⟨Method.PUT, path⟩
    match exec with
    | ExecOutcome.throw =>
      ⟨false, [req], prompts, ["An unknown error occurred."]⟩
    | ExecOutcome.status responseCode =>
      if responseCode = 201 then
        ⟨true, [req], prompts ++ ["Success."], []⟩
      else if responseCode = 403 then
        ⟨false, [req], prompts ++ ["The request was denied.", access_denied_text], []⟩
      else if responseCode = 500 then
        ⟨false, [req], prompts ++ [error_500_text], []⟩
      else
        ⟨false, [req], prompts ++ [print_coap_error path responseCode], []⟩
  else
    ⟨true, [], prompts ++ ["Action cancelled."], []⟩

/-- Source `remove_role_from_user`: same path as `add_role_to_user` but one
`DELETE` on confirmation; its status switch has no `default` branch, so
codes other than 202/403/500 print nothing. -/
def remove_role_from_user (user role : String) (input : List Char) (exec : ExecOutcome) : OpResult :=
  let path := "/iam/users/" ++ user ++ "/roles/" ++ role
  let prompts := yn_displays (remove_role_message user role) input
  if yn_prompt input then
    let req : Request := ⟨Method.DELETE, path⟩
    match exec with
    | ExecOutcome.throw =>
      ⟨false, [req], prompts, ["An unknown error occurred."]⟩
    | ExecOutcome.status responseCode =>
      if responseCode = 202 then
        ⟨true, [req], prompts ++ ["Success."], []⟩
      else if responseCode = 403 then
        ⟨false, [req],
          prompts ++ ["The request to DELETE from " ++ path ++ " was denied.", access_denied_text], []⟩
      else if responseCode = 500 then
        ⟨false, [req], prompts ++ [error_500_text], []⟩
      else
        ⟨false, [req], prompts, []⟩
  else
    ⟨true, [], prompts ++ ["Action cancelled."], []⟩

/-- Source `delete_user`: builds `/iam/users/<user>`, prompts, and on
confirmation sends one `DELETE`; its 403 chain omits the spaces around
the path (`"The request to DELETE from" << path << "was denied."`). -/
def delete_user (user : String) (input : List Char) (exec : ExecOutcome) : OpResult :=
  let path := "/iam/users/" ++ user
  let prompts := yn_displays (delete_user_message user) input
  if yn_prompt input then
    let req : Request := ⟨Method.DELETE, path⟩
    match exec with
    | ExecOutcome.throw =>
      ⟨false, [req], prompts, ["An unknown error occurred."]⟩
    | ExecOutcome.status responseCode =>
      if responseCode = 202 then
        ⟨true, [req], prompts ++ ["Success."], []⟩
      else if responseCode = 403 then
        ⟨false, [req],
          prompts ++ ["The request to DELETE from" ++ path ++ "was denied.", access_denied_text], []⟩
      else
        ⟨false, [req], prompts ++ [print_coap_error path responseCode], []⟩
  else
    ⟨true, [], prompts ++ ["Action cancelled."], []⟩

/-- Spec-side: the first character of the input stream that is `'y'` or
`'n'`, `none` when the stream fails first. -/
def firstYN : List Char → Option Char
  | [] => none
  | c :: rest => if c = 'y' ∨ c = 'n' then some c else firstYN rest

/-- Spec-side: how often the prompt is displayed — once per character
examined up to and including the first `'y'`/`'n'`, plus one final
display before the failing read when the stream runs out. -/
def promptCount (input : List Char) : Nat :=
  match input.findIdx? (fun c => c == 'y' || c == 'n') with
  | some i => i + 1
  | none => input.length + 1

theorem yn_loop_eq_firstYN (input : List Char) : ∀ a : Char, a ≠ 'y' →
    (yn_loop input a == 'y') = decide (firstYN input = some 'y') := by
  induction input with
  | nil =>
    intro a ha
    simp [yn_loop, firstYN, ha]
  | cons c rest ih =>
    intro a _
    by_cases hc : c = 'y' ∨ c = 'n'
    · rcases hc with hc | hc <;> subst hc <;> simp [yn_loop, firstYN]
    · have hcy : c ≠ 'y' := fun h => hc (Or.inl h)
      simp [yn_loop, firstYN, hc, ih c hcy]

theorem yn_reads_eq_promptCount (input : List Char) :
    yn_reads input = promptCount input := by
  induction input with
  | nil => rfl
  | cons c rest ih =>
    by_cases hc : c = 'y' ∨ c = 'n'
    · have hb : (c == 'y' || c == 'n') = true := by
        rcases hc with hc | hc <;> subst hc <;> simp
      simp [yn_reads, promptCount, List.findIdx?_cons, hc, hb]
    · have hb : (c == 'y' || c == 'n') = false := by
        rcases not_or.mp hc with ⟨h1, h2⟩
        simp [h1, h2]
      rw [yn_reads, if_neg hc, ih]
      unfold promptCount
      rw [List.findIdx?_cons, hb]
      cases h : rest.findIdx? (fun c => c == 'y' || c == 'n') <;> simp [h]

theorem list_users_requests (e : ExecOutcome) (d : DecodeOutcome) :
    (list_users e d).requests = [⟨Method.GET, "/iam/users"⟩] := by
  cases e with
  | throw => rfl
  | status c =>
    simp only [list_users]
    split_ifs
    · cases d <;> rfl
    · rfl
    · rfl

theorem list_roles_requests (e : ExecOutcome) (d : DecodeOutcome) :
    (list_roles e d).requests = [⟨Method.GET, "/iam/roles"⟩] := by
  cases e with
  | throw => rfl
  | status c =>
    simp only [list_roles]
    split_ifs
    · cases d <;> rfl
    · rfl
    · rfl

theorem add_role_requests_of_confirmed (user role : String) (input : List Char)
    (e : ExecOutcome) (h : yn_prompt input = true) :
    (add_role_to_user user role input e).requests =
      [⟨Method.PUT, "/iam/users/" ++ user ++ "/roles/" ++ role⟩] := by
  cases e with
  | throw => simp only [add_role_to_user, h, if_true]
  | status c =>
    simp only [add_role_to_user, h, if_true]
    split_ifs <;> rfl

theorem remove_role_requests_of_confirmed (user role : String) (input : List Char)
    (e : ExecOutcome) (h : yn_prompt input = true) :
    (remove_role_from_user user role input e).requests =
      [⟨Method.DELETE, "/iam/users/" ++ user ++ "/roles/" ++ role⟩] := by
  cases e with
  | throw => simp only [remove_role_from_user, h, if_true]
  | status c =>
    simp only [remove_role_from_user, h, if_true]
    split_ifs <;> rfl

theorem delete_user_requests_of_confirmed (user : String) (input : List Char)
    (e : ExecOutcome) (h : yn_prompt input = true) :
    (delete_user user input e).requests = [⟨Method.DELETE, "/iam/users/" ++ user⟩] := by
  cases e with
  | throw => simp only [delete_user, h, if_true]
  | status c =>
    simp only [delete_user, h, if_true]
    split_ifs <;> rfl

theorem add_role_declined (user role : String) (input : List Char)
    (e : ExecOutcome) (h : yn_prompt input = false) :
    add_role_to_user user role input e =
      ⟨true, [], yn_displays (add_role_message user role) input ++ ["Action cancelled."], []⟩ := by
  simp [add_role_to_user, h]

theorem remove_role_declined (user role : String) (input : List Char)
    (e : ExecOutcome) (h : yn_prompt input = false) :
    remove_role_from_user user role input e =
      ⟨true, [], yn_displays (remove_role_message user role) input ++ ["Action cancelled."], []⟩ := by
  simp [remove_role_from_user, h]

theorem delete_user_declined (user : String) (input : List Char)
    (e : ExecOutcome) (h : yn_prompt input = false) :
    delete_user user input e =
      ⟨true, [], yn_displays (delete_user_message user) input ++ ["Action cancelled."], []⟩ := by
  simp [delete_user, h]

/-- C1: each of the five operations sends its request with exactly the
contract's method and literal path — `list_users` GET `/iam/users`,
`list_roles` GET `/iam/roles`, `add_role_to_user` exactly one PUT to
`/iam/users/{user}/roles/{role}`, `remove_role_from_user` DELETE to
`/iam/users/{user}/roles/{role}`, `delete_user` DELETE to
`/iam/users/{user}`, for every operator-supplied user and role id (the
mutating operations once the prompt is confirmed). -/
theorem claim1_request_contract (user role : String) (input : List Char)
    (e1 e2 e3 e4 e5 : ExecOutcome) (d1 d2 : DecodeOutcome)
    (h : yn_prompt input = true) :
    (list_users e1 d1).requests = [⟨Method.GET, "/iam/users"⟩] ∧
    (list_roles e2 d2).requests = [⟨Method.GET, "/iam/roles"⟩] ∧
    (add_role_to_user user role input e3).requests =
      [⟨Method.PUT, "/iam/users/" ++ user ++ "/roles/" ++ role⟩] ∧
    (remove_role_from_user user role input e4).requests =
      [⟨Method.DELETE, "/iam/users/" ++ user ++ "/roles/" ++ role⟩] ∧
    (delete_user user input e5).requests = [⟨Method.DELETE, "/iam/users/" ++ user⟩] :=
  ⟨list_users_requests e1 d1, list_roles_requests e2 d2,
   add_role_requests_of_confirmed user role input e3 h,
   remove_role_requests_of_confirmed user role input e4 h,
   delete_user_requests_of_confirmed user input e5 h⟩

/-- C1 witness: concrete user "alice", role "Admin", confirming input. -/
theorem claim1_request_contract_witness :
    (add_role_to_user "alice" "Admin" ['y'] (ExecOutcome.status 201)).requests =
      [⟨Method.PUT, "/iam/users/alice/roles/Admin"⟩] :=
  (claim1_request_contract "alice" "Admin" ['y']
    (ExecOutcome.status 205) (ExecOutcome.status 205) (ExecOutcome.status 201)
    (ExecOutcome.status 202) (ExecOutcome.status 202)
    (DecodeOutcome.ok []) (DecodeOutcome.ok []) (by decide)).2.2.1

/-- C2: declining the confirmation prompt on any mutating operation
prints "Action cancelled." after the prompt lines, returns true, and
creates no request object at all. -/
theorem claim2_decline_cancels (user role : String) (input : List Char)
    (e3 e4 e5 : ExecOutcome) (h : yn_prompt input = false) :
    add_role_to_user user role input e3 =
      ⟨true, [], yn_displays (add_role_message user role) input ++ ["Action cancelled."], []⟩ ∧
    remove_role_from_user user role input e4 =
      ⟨true, [], yn_displays (remove_role_message user role) input ++ ["Action cancelled."], []⟩ ∧
    delete_user user input e5 =
      ⟨true, [], yn_displays (delete_user_message user) input ++ ["Action cancelled."], []⟩ :=
  ⟨add_role_declined user role input e3 h,
   remove_role_declined user role input e4 h,
   delete_user_declined user input e5 h⟩

/-- C2 witness: declining input `['n']` on `add_role_to_user`. -/
theorem claim2_decline_cancels_witness :
    add_role_to_user "alice" "Admin" ['n'] (ExecOutcome.status 201) =
      ⟨true, [],
        yn_displays (add_role_message "alice" "Admin") ['n'] ++ ["Action cancelled."], []⟩ :=
  (claim2_decline_cancels "alice" "Admin" ['n']
    (ExecOutcome.status 201) (ExecOutcome.status 202) (ExecOutcome.status 202)
    (by decide)).1

/-- C9 counterexample: a declined `add_role_to_user` invocation issues
zero requests, so not every invocation performs exactly one request. -/
theorem claim9_counterexample :
    ¬ (add_role_to_user "alice" "Admin" ['n'] (ExecOutcome.status 201)).requests.length = 1 := by
  decide

/-- C9 (amended): every invocation creates at most one request — exactly
one for the list operations, and for the mutating operations exactly one
when the prompt is confirmed and zero when it is declined; never two or
more. -/
theorem claim9_at_most_one_request (user role : String) (input : List Char)
    (e1 e2 e3 e4 e5 : ExecOutcome) (d1 d2 : DecodeOutcome) :
    (list_users e1 d1).requests.length = 1 ∧
    (list_roles e2 d2).requests.length = 1 ∧
    (add_role_to_user user role input e3).requests.length =
      (if yn_prompt input then 1 else 0) ∧
    (remove_role_from_user user role input e4).requests.length =
      (if yn_prompt input then 1 else 0) ∧
    (delete_user user input e5).requests.length =
      (if yn_prompt input then 1 else 0) := by
  by_cases hy : yn_prompt input = true
  · simp [list_users_requests, list_roles_requests,
      add_role_requests_of_confirmed user role input e3 hy,
      remove_role_requests_of_confirmed user role input e4 hy,
      delete_user_requests_of_confirmed user input e5 hy, hy]
  · have hy' : yn_prompt input = false := by
      cases hyn : yn_prompt input
      · rfl
      · exact absurd hyn hy
    simp [list_users_requests, list_roles_requests,
      add_role_declined user role input e3 hy',
      remove_role_declined user role input e4 hy',
      delete_user_declined user input e5 hy', hy']

/-- C10: the request path is the raw concatenation of the fixed prefixes
with the operator-supplied identifiers, with no validation or escaping —
for every user and role string (empty or containing '/' included),
`add_role_to_user` and `remove_role_from_user` target exactly
`"/iam/users/" ++ user ++ "/roles/" ++ role` and `delete_user` targets
exactly `"/iam/users/" ++ user`. -/
theorem claim10_raw_concatenation (user role : String) (input : List Char)
    (e3 e4 e5 : ExecOutcome) (h : yn_prompt input = true) :
    (add_role_to_user user role input e3).requests =
      [⟨Method.PUT, "/iam/users/" ++ user ++ "/roles/" ++ role⟩] ∧
    (remove_role_from_user user role input e4).requests =
      [⟨Method.DELETE, "/iam/users/" ++ user ++ "/roles/" ++ role⟩] ∧
    (delete_user user input e5).requests =
      [⟨Method.DELETE, "/iam/users/" ++ user⟩] :=
  ⟨add_role_requests_of_confirmed user role input e3 h,
   remove_role_requests_of_confirmed user role input e4 h,
   delete_user_requests_of_confirmed user input e5 h⟩

/-- C10 witness: a user id containing '/' and an empty role id pass
through unescaped. -/
theorem claim10_raw_concatenation_witness :
    (add_role_to_user "a/b" "" ['y'] (ExecOutcome.status 201)).requests =
      [⟨Method.PUT, "/iam/users/a/b/roles/"⟩] :=
  (claim10_raw_concatenation "a/b" "" ['y']
    (ExecOutcome.status 201) (ExecOutcome.status 202) (ExecOutcome.status 202)
    (by decide)).1

theorem append_yn_suffix_ne_success (s : String) : s ++ " [y/n]: " ≠ "Success." := by
  intro hEq
  have hlen := congrArg String.length hEq
  rw [String.length_append] at hlen
  have h8 : (" [y/n]: " : String).length = 8 := by decide
  have hS : ("Success." : String).length = 8 := by decide
  rw [h8, hS] at hlen
  have hs0 : s.length = 0 := by omega
  have hsdata : s.data = [] := List.length_eq_zero.mp hs0
  have hse : s = "" := by
    cases s with
    | mk d => simp only at hsdata; simp [hsdata]
  subst hse
  have he : ("" ++ " [y/n]: " : String) = " [y/n]: " := by decide
  rw [he] at hEq
  exact absurd hEq (by decide)

theorem success_not_mem_yn_displays (message : String) (input : List Char) :
    "Success." ∉ yn_displays message input := by
  intro hmem
  rcases List.eq_of_mem_replicate hmem with h
  exact append_yn_suffix_ne_success message h.symm

/-- C3: `remove_role_from_user`, confirmed, with a status code other
than 202/403/500 prints no message at all (nothing beyond the prompt
lines) and returns false — unlike the other four operations, which
print the generic CoAP status line for their own unrecognized codes. -/
theorem claim3_remove_role_silent_default (user role : String) (input : List Char)
    (code : Int) (h : yn_prompt input = true)
    (h202 : code ≠ 202) (h403 : code ≠ 403) (h500 : code ≠ 500) :
    remove_role_from_user user role input (ExecOutcome.status code) =
      ⟨false, [⟨Method.DELETE, "/iam/users/" ++ user ++ "/roles/" ++ role⟩],
        yn_displays (remove_role_message user role) input, []⟩ ∧
    (∀ c : Int, c ≠ 205 → c ≠ 403 → ∀ d : DecodeOutcome,
      (list_users (ExecOutcome.status c) d).stdout = [print_coap_error "/iam/users" c]) ∧
    (∀ c : Int, c ≠ 205 → c ≠ 403 → ∀ d : DecodeOutcome,
      (list_roles (ExecOutcome.status c) d).stdout = [print_coap_error "/iam/roles" c]) ∧
    (∀ c : Int, c ≠ 201 → c ≠ 403 → c ≠ 500 →
      (add_role_to_user user role input (ExecOutcome.status c)).stdout =
        yn_displays (add_role_message user role) input ++
          [print_coap_error ("/iam/users/" ++ user ++ "/roles/" ++ role) c]) ∧
    (∀ c : Int, c ≠ 202 → c ≠ 403 →
      (delete_user user input (ExecOutcome.status c)).stdout =
        yn_displays (delete_user_message user) input ++
          [print_coap_error ("/iam/users/" ++ user) c]) := by
  refine ⟨?_, ?_, ?_, ?_, ?_⟩
  · simp [remove_role_from_user, h, h202, h403, h500]
  · intro c hc1 hc2 d
    simp [list_users, hc1, hc2]
  · intro c hc1 hc2 d
    simp [list_roles, hc1, hc2]
  · intro c hc1 hc2 hc3
    simp [add_role_to_user, h, hc1, hc2, hc3]
  · intro c hc1 hc2
    simp [delete_user, h, hc1, hc2]

/-- C3 witness: status 418 on a confirmed `remove_role_from_user`. -/
theorem claim3_remove_role_silent_default_witness :
    remove_role_from_user "alice" "Admin" ['y'] (ExecOutcome.status 418) =
      ⟨false, [⟨Method.DELETE, "/iam/users/alice/roles/Admin"⟩],
        yn_displays (remove_role_message "alice" "Admin") ['y'], []⟩ :=
  (claim3_remove_role_silent_default "alice" "Admin" ['y'] 418
    (by decide) (by decide) (by decide) (by decide)).1

/-- C4: status 403 on any of the five operations returns false and
emits a denial message followed by the access-denied guidance text
pointing at the device's IAM policies file. -/
theorem claim4_denied_403 (user role : String) (input : List Char)
    (d1 d2 : DecodeOutcome) (h : yn_prompt input = true) :
    list_users (ExecOutcome.status 403) d1 =
      ⟨false, [⟨Method.GET, "/iam/users"⟩],
        ["The request to list users (/iam/users) was denied.", access_denied_text], []⟩ ∧
    list_roles (ExecOutcome.status 403) d2 =
      ⟨false, [⟨Method.GET, "/iam/roles"⟩],
        ["The request to list roles (/iam/roles) was denied.", access_denied_text], []⟩ ∧
    add_role_to_user user role input (ExecOutcome.status 403) =
      ⟨false, [⟨Method.PUT, "/iam/users/" ++ user ++ "/roles/" ++ role⟩],
        yn_displays (add_role_message user role) input ++
          ["The request was denied.", access_denied_text], []⟩ ∧
    remove_role_from_user user role input (ExecOutcome.status 403) =
      ⟨false, [⟨Method.DELETE, "/iam/users/" ++ user ++ "/roles/" ++ role⟩],
        yn_displays (remove_role_message user role) input ++
          ["The request to DELETE from " ++ ("/iam/users/" ++ user ++ "/roles/" ++ role) ++
             " was denied.", access_denied_text], []⟩ ∧
    delete_user user input (ExecOutcome.status 403) =
      ⟨false, [⟨Method.DELETE, "/iam/users/" ++ user⟩],
        yn_displays (delete_user_message user) input ++
          ["The request to DELETE from" ++ ("/iam/users/" ++ user) ++ "was denied.",
           access_denied_text], []⟩ := by
  refine ⟨?_, ?_, ?_, ?_, ?_⟩ <;>
    simp [list_users, list_roles, add_role_to_user, remove_role_from_user, delete_user, h]

/-- C4 witness: status 403 on `list_users`. -/
theorem claim4_denied_403_witness :
    list_users (ExecOutcome.status 403) (DecodeOutcome.ok []) =
      ⟨false, [⟨Method.GET, "/iam/users"⟩],
        ["The request to list users (/iam/users) was denied.", access_denied_text], []⟩ :=
  (claim4_denied_403 "alice" "Admin" ['y']
    (DecodeOutcome.ok []) (DecodeOutcome.ok []) (by decide)).1

/-- C5: on status 205 `list_users` prints each decoded user id with its
1-based index and returns true; in particular, for a payload decoding to
["alice","bob"] it prints entries indexed 1 and 2 in that order. -/
theorem claim5_list_users_205 :
    (∀ users : List String,
      list_users (ExecOutcome.status 205) (DecodeOutcome.ok users) =
        ⟨true, [⟨Method.GET, "/iam/users"⟩],
          "Listing all users..." :: user_lines users, []⟩) ∧
    list_users (ExecOutcome.status 205) (DecodeOutcome.ok ["alice", "bob"]) =
      ⟨true, [⟨Method.GET, "/iam/users"⟩],
        ["Listing all users...", "[1] UserID: alice", "[2] UserID: bob"], []⟩ := by
  constructor
  · intro users
    rfl
  · rfl

/-- C6: a confirmed `delete_user` completing with a status other than
202 and 403 returns false and emits the generic CoAP status message
naming the request path and the numeric code. -/
theorem claim6_delete_user_default (user : String) (input : List Char) (code : Int)
    (h : yn_prompt input = true) (h202 : code ≠ 202) (h403 : code ≠ 403) :
    delete_user user input (ExecOutcome.status code) =
      ⟨false, [⟨Method.DELETE, "/iam/users/" ++ user⟩],
        yn_displays (delete_user_message user) input ++
          [print_coap_error ("/iam/users/" ++ user) code], []⟩ := by
  simp [delete_user, h, h202, h403]

/-- C6 witness: status 418 on `delete_user "alice"`. -/
theorem claim6_delete_user_default_witness :
    delete_user "alice" ['y'] (ExecOutcome.status 418) =
      ⟨false, [⟨Method.DELETE, "/iam/users/alice"⟩],
        yn_displays (delete_user_message "alice") ['y'] ++
          ["The CoAP request to /iam/users/alice returned response code: 418"], []⟩ :=
  claim6_delete_user_default "alice" ['y'] 418 (by decide) (by decide) (by decide)

/-- C8: `yn_prompt` displays the message followed by " [y/n]: " once per
read attempt, reading until the character is 'y', 'n', or the stream
fails; it returns true exactly when the first 'y'/'n' read is 'y', so a
stream failure before any 'y'/'n' yields false (a decline). -/
theorem claim8_yn_prompt (message : String) (input : List Char) :
    yn_prompt input = decide (firstYN input = some 'y') ∧
    yn_displays message input =
      List.replicate (promptCount input) (message ++ " [y/n]: ") := by
  constructor
  · exact yn_loop_eq_firstYN input (Char.ofNat 0) (by decide)
  · rw [yn_displays, yn_reads_eq_promptCount]

/-- C7: an exception thrown while sending the request or decoding the
payload is caught at the operation boundary: exactly one generic error
line goes to the error stream, no success message is emitted (no
"Success." line, no decoded entries), and the operation returns false.
Covered fault points: `execute()->waitForResult()` throwing on each
operation, and `getResponsePayload()` / `json::from_cbor` throwing on
the 205 branch of the list operations. -/
theorem claim7_exceptions_caught (user role : String) (input : List Char)
    (h : yn_prompt input = true) :
    (list_users ExecOutcome.throw DecodeOutcome.payloadThrow =
      ⟨false, [⟨Method.GET, "/iam/users"⟩], [], ["Cannot get IAM user list"]⟩) ∧
    (list_users (ExecOutcome.status 205) DecodeOutcome.payloadThrow =
      ⟨false, [⟨Method.GET, "/iam/users"⟩], [], ["Cannot get IAM user list"]⟩) ∧
    (list_users (ExecOutcome.status 205) DecodeOutcome.cborThrow =
      ⟨false, [⟨Method.GET, "/iam/users"⟩], ["Listing all users..."],
        ["Cannot get IAM user list"]⟩) ∧
    (list_roles ExecOutcome.throw DecodeOutcome.payloadThrow =
      ⟨false, [⟨Method.GET, "/iam/roles"⟩], [], ["Cannot get IAM role list"]⟩) ∧
    (list_roles (ExecOutcome.status 205) DecodeOutcome.payloadThrow =
      ⟨false, [⟨Method.GET, "/iam/roles"⟩], [], ["Cannot get IAM role list"]⟩) ∧
    (list_roles (ExecOutcome.status 205) DecodeOutcome.cborThrow =
      ⟨false, [⟨Method.GET, "/iam/roles"⟩], ["Listing available roles..."],
        ["Cannot get IAM role list"]⟩) ∧
    (add_role_to_user user role input ExecOutcome.throw =
      ⟨false, [⟨Method.PUT, "/iam/users/" ++ user ++ "/roles/" ++ role⟩],
        yn_displays (add_role_message user role) input, ["An unknown error occurred."]⟩) ∧
    (remove_role_from_user user role input ExecOutcome.throw =
      ⟨false, [⟨Method.DELETE, "/iam/users/" ++ user ++ "/roles/" ++ role⟩],
        yn_displays (remove_role_message user role) input, ["An unknown error occurred."]⟩) ∧
    (delete_user user input ExecOutcome.throw =
      ⟨false, [⟨Method.DELETE, "/iam/users/" ++ user⟩],
        yn_displays (delete_user_message user) input, ["An unknown error occurred."]⟩) ∧
    ("Success." ∉ (add_role_to_user user role input ExecOutcome.throw).stdout) ∧
    ("Success." ∉ (remove_role_from_user user role input ExecOutcome.throw).stdout) ∧
    ("Success." ∉ (delete_user user input ExecOutcome.throw).stdout) := by
  refine ⟨rfl, rfl, rfl, rfl, rfl, rfl, ?_, ?_, ?_, ?_, ?_, ?_⟩
  · simp [add_role_to_user, h]
  · simp [remove_role_from_user, h]
  · simp [delete_user, h]
  · simp [add_role_to_user, h, success_not_mem_yn_displays]
  · simp [remove_role_from_user, h, success_not_mem_yn_displays]
  · simp [delete_user, h, success_not_mem_yn_displays]

/-- C7 witness: a throwing request on a confirmed `add_role_to_user`. -/
theorem claim7_exceptions_caught_witness :
    add_role_to_user "alice" "Admin" ['y'] ExecOutcome.throw =
      ⟨false, [⟨Method.PUT, "/iam/users/alice/roles/Admin"⟩],
        yn_displays (add_role_message "alice" "Admin") ['y'],
        ["An unknown error occurred."]⟩ :=
  (claim7_exceptions_caught "alice" "Admin" ['y'] (by decide)).2.2.2.2.2.2.1

end IAM
